import Mathlib

/-!
# Verification of `src/train.py` (machine-translation training orchestration)

A shallow embedding of the module `train.py`, which validates a nested
configuration, builds a data loader / model / fastai `Learner`, optionally
restores a checkpoint, and launches one-cycle training.

Modelling conventions:

* The nested configuration (a parsed config file: dicts, lists, strings,
  ints, bools, None) is the inductive type `Value`.  Python's subscript
  `val[key]` with a string key succeeds only on a dict (`KeyError` when the
  key is absent, `TypeError` on any non-dict), which `getItem` reflects by
  returning `Option Value`.  Floating-point config values are outside the
  model.
* External effects (directory creation, CUDA device calls, process-group
  initialisation, data-loader / model / learner construction, printing,
  fitting) are recorded as events in a trace; the environment `Env`
  abstracts the ambient state the code consults: whether CUDA is available
  (`torch.cuda.get_device_name` / `set_device` raise a `RuntimeError` when
  it is not), the `RANK` environment variable, and which checkpoint files
  exist (consulted by `learn.load`, which raises `FileNotFoundError` on a
  missing file).
* Python exceptions are values of `PyErr`; a function that can raise
  returns the trace of events emitted before the exception together with
  `Except`/`Option PyErr`.
* Python string primitives used by the code (`str.split` with a one-char
  separator, slices `s[-4:]` and `s[:-4]`, `int(...)` on digit strings,
  `os.path.join`) are modelled structurally on `List Char` so that they
  compute by `rfl`/`decide`.  `int(...)` is modelled for strings without
  underscores or non-ASCII digits, which is exact for the fields produced
  here by splitting on `'_'`.
-/

/-- A value of the nested configuration mapping (a parsed config file). -/
inductive Value where
  | vnone : Value
  | vint : Int → Value
  | vbool : Bool → Value
  | vstr : String → Value
  | vlist : List Value → Value
  | vdict : List (String × Value) → Value

/-- First binding of a key in a dict's association list (Python dicts have
unique keys, so this is exact). -/
def assocFind : List (String × Value) → String → Option Value
  | [], _ => none
  | (k, v) :: rest, key => if k = key then some v else assocFind rest key

/-- Python's `val[key]` for a string key: a lookup on a dict, `none` when the
key is absent (`KeyError`) or the value is not a dict (`TypeError`). -/
def getItem : Value → String → Option Value
  | Value.vdict entries, key => assocFind entries key
  | _, _ => none

/-- Python's `s.split(sep)` for a one-character separator, on `List Char`. -/
def splitOnChar (c : Char) : List Char → List (List Char)
  | [] => [[]]
  | x :: xs =>
    if x = c then [] :: splitOnChar c xs
    else
      match splitOnChar c xs with
      | [] => [[x]]
      | g :: gs => (x :: g) :: gs

/-- Python's `s.split(sep)` for a one-character separator. -/
def pySplit (s : String) (c : Char) : List String :=
  (splitOnChar c s.data).map String.mk

/-- Successive subscripting of `params` by a list of keys: the inner loop of
`check_params` (`train.py` lines 24-27). -/
def resolveKeys : Value → List String → Option Value
  | v, [] => some v
  | v, key :: keys =>
    match getItem v key with
    | none => none
    | some v2 => resolveKeys v2 keys

/-- Resolution of one dotted key path against the configuration. -/
def resolvePath (params : Value) (p : String) : Option Value :=
  resolveKeys params (pySplit p '.')

/-- The `ValueError` message of `check_params` (`train.py` line 29). -/
def missingParamMsg (p : String) : String :=
  "Expected parameter \"" ++ p ++ "\" not supplied."

/-- Model of `check_params(params, param_list)` (`train.py` lines 18-29): walks each
dotted path through the configuration; the first path whose resolution fails
(`KeyError`/`TypeError`) is turned into a `ValueError` naming that path. -/
def check_params (params : Value) : List String → Except String Unit
  | [] => Except.ok ()
  | p :: ps =>
    match resolvePath params p with
    | none => Except.error (missingParamMsg p)
    | some _ => check_params params ps

/-- The statements of `check_params` with the configuration object threaded
through explicitly as state: every iteration only reads `params` (the body
assigns local variables `val`/`key` and never stores into the mapping), so
the state returned on normal termination is the configuration the caller
passed in.  Used to express the frame property of `check_params`. -/
def check_params_state (params : Value) : List String → Except String Value
  | [] => Except.ok params
  | p :: ps =>
    match resolvePath params p with
    | none => Except.error (missingParamMsg p)
    | some _ => check_params_state params ps

/-- Python's slice `s[-4:]` (for strings shorter than 4 it is the whole
string, which `List.drop` with truncated subtraction reproduces). -/
def pySliceLast4 (s : String) : String :=
  String.mk (s.data.drop (s.data.length - 4))

/-- Python's slice `s[:-4]`. -/
def pyDropLast4 (s : String) : String :=
  String.mk (s.data.take (s.data.length - 4))

/-- The extension strip of `train_worker` (`train.py` lines 168-170):
`if restore[-4:] == '.pth': restore = restore[:-4]`. -/
def stripPth (restore : String) : String :=
  if pySliceLast4 restore = ".pth" then pyDropLast4 restore else restore

/-- Whitespace stripped by Python's `int(str)`. -/
def isPySpace (c : Char) : Bool :=
  c = ' ' || c = '\t' || c = '\n' || c = '\r' || c = '\x0b' || c = '\x0c'

/-- Strip leading and trailing whitespace, as `int(str)` does. -/
def pyStripSpaces (l : List Char) : List Char :=
  ((l.dropWhile isPySpace).reverse.dropWhile isPySpace).reverse

/-- Value of a non-empty all-ASCII-digit string, `none` otherwise. -/
def pyDigits : List Char → Option Nat
  | [] => none
  | ds =>
    if ds.all Char.isDigit then
      some (ds.foldl (fun a c => a * 10 + (c.toNat - 48)) 0)
    else none

/-- Python's `int(s)` on a string: optional surrounding whitespace, an
optional sign, then at least one digit (modelled for ASCII digits and
strings without underscores; exact for the `'_'`-split fields it is applied
to here).  `none` models the `ValueError` that the bare `except` of
`train_worker` (line 183) swallows. -/
def pyInt (s : String) : Option Int :=
  match pyStripSpaces s.data with
  | '+' :: ds => (pyDigits ds).map Int.ofNat
  | '-' :: ds => (pyDigits ds).map (fun n => -(n : Int))
  | ds => (pyDigits ds).map Int.ofNat

/-- The resume-epoch derivation of `train_worker` (`train.py` lines
180-185): the last `'/'`-component of the (already stripped) restore name is
split on `'_'`; with more than one field and an integer second field the
start epoch is that integer plus one, otherwise it stays `None`. -/
def resumeEpoch (restore : String) : Option Int :=
  let fields := pySplit ((pySplit restore '/').getLastD "") '_'
  if fields.length > 1 then
    match pyInt (fields.getD 1 "") with
    | some n => some (n + 1)
    | none => none
  else none

/-- Does the string start with `'/'`? (`os.path.join` restarts at an
absolute component.) -/
def startsWithSlash (s : String) : Bool :=
  match s.data with
  | '/' :: _ => true
  | _ => false

/-- Does the string end with `'/'`? -/
def endsWithSlash (s : String) : Bool :=
  match s.data.getLast? with
  | some '/' => true
  | _ => false

/-- POSIX `os.path.join` for two components. -/
def os_path_join (a b : String) : String :=
  if startsWithSlash b then b
  else if a = "" || endsWithSlash a then a ++ b
  else a ++ "/" ++ b

/-- Python's `str(...)` of an optional string, as interpolated by the
f-string `f'file://{comm_file}'` (`str(None)` is `"None"`). -/
def pyStrOfOptStr : Option String → String
  | none => "None"
  | some s => s

/-- A raised Python exception. -/
inductive PyErr where
  | keyError : String → PyErr
  | typeError : String → PyErr
  | indexError : String → PyErr
  | valueError : String → PyErr
  | runtimeError : String → PyErr

/-- External calls made by `build_learner`, in program order. -/
inductive BEvent where
  | makedirs : String → BEvent
  | getDeviceName : Value → BEvent
  | setDevice : Value → BEvent
  | initProcessGroup : (world_size : Nat) → (rank : Nat) → (init_method : String) → BEvent
  | mkDataLoader : (batch_size : Int) → (distributed : Bool) → BEvent
  | mkModel : BEvent
  | initWeights : BEvent
  | modelCuda : Value → BEvent
  | wrapDDP : Value → BEvent
  | mkDataBunch : (device : Option Value) → BEvent
  | mkLearner : (model_dir : String) → BEvent

/-- The `Learner` state `train_worker` reads back from `build_learner`:
its `model_dir` (used by `learn.load` and the missing-file message). -/
structure LearnerM where
  model_dir : String

/-- Ambient state consulted by the code: CUDA availability, the initial
`RANK` environment variable, and which files exist (keyed by path). -/
structure Env where
  cuda_available : Bool
  rank : Option String
  fileExists : String → Bool

/-- The dotted paths `build_learner` checks before building the data loader
(`train.py` lines 68-78). -/
def dataParams : List String :=
  ["data.batch_size", "data.dir", "data.epoch_size", "data.max_length",
   "data.max_test_size", "data.max_val_size", "data.src", "data.tgt"]

/-- The dotted paths `build_learner` checks before building the model
(`train.py` lines 98-110). -/
def networkParams : List String :=
  ["decoder.embedding_dim", "decoder.embedding_dropout",
   "decoder.prediction_dropout", "encoder.embedding_dim",
   "encoder.embedding_dropout", "network.bias", "network.block_sizes",
   "network.division_factor", "network.dropout", "network.efficient",
   "network.growth_rate"]

/-- The dotted paths `train_worker` checks before fitting
(`train.py` lines 191-194). -/
def optimParams : List String :=
  ["optim.epochs", "optim.lr"]

/-- Model of `build_learner(params, project_dir, pindex, comm_file)` (`train.py`
lines 31-137).  Returns the trace of external calls made before returning
or raising, and either the raised exception or the constructed `Learner`
state.  Step by step:

* `params['model_name']` (`KeyError` when absent), `os.path.join` (a
  `TypeError` on a non-string name), `os.makedirs` (its
  `FileExistsError` is swallowed by the source);
* `params['gpu_ids']` (`KeyError` when absent; the schema's value is a
  list, any non-sequence raises a `TypeError` at `len`), `world_size`,
  `distributed`;
* on the GPU path, `gpu_ids[pindex]` (`IndexError` out of range) and
  `torch.cuda.get_device_name` / `torch.cuda.set_device`, which raise a
  `RuntimeError` when CUDA is unavailable;
* `torch.distributed.init_process_group` exactly when `distributed`, with
  `world_size`, `rank=pindex` and `init_method=f'file://{comm_file}'`;
* `check_params` over `dataParams`, then
  `params['data']['batch_size'] // world_size` (`TypeError` on a
  non-integer), `os.path.join(data_dir, ...)` (`TypeError` on a
  non-string `data.dir`), and the `PervasiveDataLoader` construction;
* `check_params` over `networkParams`, then the `Pervasive` model
  construction, whose argument `params['data']['max_length'] + 2` raises a
  `TypeError` on a non-integer, and `model.init_weights()`;
* on the GPU path, the explicit `torch.cuda.is_available()` re-check of
  lines 124-127 (its `ValueError` message is the source's literal,
  f-prefix missing and all), `model.cuda`, and the
  `DistributedDataParallel` wrap when distributed;
* the `DataBunch` and `Learner` constructions.  Filesystem path strings
  for the loader are passed through to external code and not recorded. -/
def build_learner (env : Env) (params : Value) (project_dir : String)
    (pindex : Nat) (comm_file : Option String) :
    List BEvent × Except PyErr LearnerM :=
  match getItem params "model_name" with
  | none => ([], Except.error (PyErr.keyError "model_name"))
  | some (Value.vstr model_name) =>
    let model_dir := os_path_join (os_path_join project_dir "model") model_name
    let tr0 := [BEvent.makedirs model_dir]
    match getItem params "gpu_ids" with
    | none => (tr0, Except.error (PyErr.keyError "gpu_ids"))
    | some (Value.vlist gpu_ids) =>
      let world_size := if gpu_ids.length > 0 then gpu_ids.length else 1
      let distributed := decide (world_size > 1)
      let devres : Except PyErr (List BEvent × Option Value) :=
        if gpu_ids.isEmpty then Except.ok ([], none)
        else
          match gpu_ids.get? pindex with
          | none => Except.error (PyErr.indexError "list index out of range")
          | some device_id =>
            if env.cuda_available then
              Except.ok ([BEvent.getDeviceName device_id,
                          BEvent.setDevice device_id], some device_id)
            else Except.error (PyErr.runtimeError "No CUDA GPUs are available")
      match devres with
      | Except.error e => (tr0, Except.error e)
      | Except.ok (devEvts, device_id) =>
        let tr1 := tr0 ++ devEvts
        let tr2 := tr1 ++
          (if distributed then
            [BEvent.initProcessGroup world_size pindex
              ("file://" ++ pyStrOfOptStr comm_file)]
          else [])
        match check_params params dataParams with
        | Except.error msg => (tr2, Except.error (PyErr.valueError msg))
        | Except.ok _ =>
          match resolvePath params "data.batch_size" with
          | some (Value.vint bs) =>
            let batch_size := Int.fdiv bs world_size
            match resolvePath params "data.dir" with
            | some (Value.vstr _data_dir) =>
              let tr3 := tr2 ++ [BEvent.mkDataLoader batch_size distributed]
              match check_params params networkParams with
              | Except.error msg => (tr3, Except.error (PyErr.valueError msg))
              | Except.ok _ =>
                match resolvePath params "data.max_length" with
                | some (Value.vint _max_length) =>
                  let tr4 := tr3 ++ [BEvent.mkModel, BEvent.initWeights]
                  match device_id with
                  | none =>
                    (tr4 ++ [BEvent.mkDataBunch none, BEvent.mkLearner model_dir],
                     Except.ok { model_dir := model_dir })
                  | some did =>
                    if env.cuda_available then
                      (tr4 ++ [BEvent.modelCuda did] ++
                        (if distributed then [BEvent.wrapDDP did] else []) ++
                        [BEvent.mkDataBunch (some did), BEvent.mkLearner model_dir],
                       Except.ok { model_dir := model_dir })
                    else
                      (tr4, Except.error (PyErr.valueError
                        "Request to train on GPU {device_id}, but not GPU found."))
                | _ => (tr3, Except.error (PyErr.typeError
                    "unsupported operand type(s) for +"))
            | _ => (tr2, Except.error (PyErr.typeError
                "join() argument must be str"))
          | _ => (tr2, Except.error (PyErr.typeError
              "unsupported operand type(s) for //"))
    | some _ => (tr0, Except.error (PyErr.typeError
        "object of type has no len()"))
  | some _ => ([], Except.error (PyErr.typeError
      "join() argument must be str"))

/-- A fastai callback registered by `train_worker`; `saveModel every name`
is `SaveModelCallback(learn, every=..., name=...)`. -/
inductive Callback where
  | saveModel : (every : String) → (name : String) → Callback

/-- Observable actions of `train_worker`: the calls of `build_learner`
wrapped by `Event.build`, plus the worker's own effects. -/
inductive Event where
  | build : BEvent → Event
  | setRankEnv : Nat → Event
  | loadModel : (name : String) → Event
  | printMsg : String → Event
  | setCallbacks : List Callback → Event
  | fitOneCycle : (epochs : Value) → (lr : Value) → (tot_epochs : Value) →
      (start_epoch : Option Int) → Event

/-- The tail of `train_worker` (`train.py` lines 187-198): register the
save-every-epoch callback, check `optimParams`, and call
`learn.fit_one_cycle(epochs, lr, tot_epochs=epochs, start_epoch=epoch)`. -/
def fitPhase (params : Value) (tr : List Event) (epoch : Option Int) :
    List Event × Option PyErr :=
  let tr1 := tr ++ [Event.setCallbacks [Callback.saveModel "epoch" "model"]]
  match check_params params optimParams with
  | Except.error msg => (tr1, some (PyErr.valueError msg))
  | Except.ok _ =>
    let epochs := (resolvePath params "optim.epochs").getD Value.vnone
    let lr := (resolvePath params "optim.lr").getD Value.vnone
    (tr1 ++ [Event.fitOneCycle epochs lr epochs epoch], none)

/-- Model of `train_worker(pindex, project_dir, params, comm_file, checkpoint,
restore)` (`train.py` lines 139-198).  Sets `RANK` when unset or empty
(`os.getenv` falsy test), builds the learner (exceptions propagate), then:

* with `restore` given, strips a `.pth` extension, and `learn.load`
  looks for `model_dir/restore.pth`; on `FileNotFoundError` the rank-0
  worker prints the missing-file message and the function returns
  normally without fitting; on success the rank-0 worker prints the
  loaded message and the resume epoch is derived by `resumeEpoch`;
* registers the callbacks and fits (`fitPhase`).

The `checkpoint` parameter is accepted and never read, as in the source. -/
def train_worker (env : Env) (pindex : Nat) (project_dir : String)
    (params : Value) (comm_file : Option String) (checkpoint : Option Value)
    (restore : Option String) : List Event × Option PyErr :=
  let rankEvts :=
    match env.rank with
    | none => [Event.setRankEnv pindex]
    | some s => if s = "" then [Event.setRankEnv pindex] else []
  match build_learner env params project_dir pindex comm_file with
  | (btr, Except.error e) => (rankEvts ++ btr.map Event.build, some e)
  | (btr, Except.ok learn) =>
    let tr0 := rankEvts ++ btr.map Event.build
    match restore with
    | none => fitPhase params tr0 none
    | some restore0 =>
      let restore1 := stripPth restore0
      if env.fileExists (learn.model_dir ++ "/" ++ restore1 ++ ".pth") then
        fitPhase params
          (tr0 ++ [Event.loadModel restore1] ++
            (if pindex = 0 then
              [Event.printMsg ("Loaded model " ++ restore1 ++ ".")]
            else []))
          (resumeEpoch restore1)
      else
        (tr0 ++
          (if pindex = 0 then
            [Event.printMsg ("The model file " ++ learn.model_dir ++ "/" ++
              restore1 ++ ".pth was not found!")]
          else []),
         none)

/-- A complete demo `data` section (all of `dataParams` present). -/
def demoData : Value := Value.vdict
  [("batch_size", Value.vint 32), ("dir", Value.vstr "data"),
   ("epoch_size", Value.vint 100), ("max_length", Value.vint 50),
   ("max_test_size", Value.vint 10), ("max_val_size", Value.vint 10),
   ("src", Value.vstr "de"), ("tgt", Value.vstr "en")]

/-- A complete demo configuration, CPU-only (`gpu_ids = []`). -/
def demoParams : Value := Value.vdict
  [("model_name", Value.vstr "demo"),
   ("gpu_ids", Value.vlist []),
   ("data", demoData),
   ("decoder", Value.vdict
     [("embedding_dim", Value.vint 128), ("embedding_dropout", Value.vint 0),
      ("prediction_dropout", Value.vint 0)]),
   ("encoder", Value.vdict
     [("embedding_dim", Value.vint 128), ("embedding_dropout", Value.vint 0)]),
   ("network", Value.vdict
     [("bias", Value.vbool true), ("block_sizes", Value.vlist [Value.vint 2]),
      ("division_factor", Value.vint 1), ("dropout", Value.vint 0),
      ("efficient", Value.vbool false), ("growth_rate", Value.vint 2)]),
   ("optim", Value.vdict [("epochs", Value.vint 10), ("lr", Value.vint 1)])]

/-- The demo configuration with two GPUs requested. -/
def demoParamsGpu : Value := Value.vdict
  [("model_name", Value.vstr "demo"),
   ("gpu_ids", Value.vlist [Value.vint 0, Value.vint 1]),
   ("data", demoData),
   ("decoder", Value.vdict
     [("embedding_dim", Value.vint 128), ("embedding_dropout", Value.vint 0),
      ("prediction_dropout", Value.vint 0)]),
   ("encoder", Value.vdict
     [("embedding_dim", Value.vint 128), ("embedding_dropout", Value.vint 0)]),
   ("network", Value.vdict
     [("bias", Value.vbool true), ("block_sizes", Value.vlist [Value.vint 2]),
      ("division_factor", Value.vint 1), ("dropout", Value.vint 0),
      ("efficient", Value.vbool false), ("growth_rate", Value.vint 2)]),
   ("optim", Value.vdict [("epochs", Value.vint 10), ("lr", Value.vint 1)])]

/-- Environment without CUDA in which no checkpoint file exists. -/
def demoEnv : Env :=
  { cuda_available := false, rank := some "0", fileExists := fun _ => false }

/-- Environment without CUDA in which every checkpoint file exists. -/
def demoEnvFile : Env :=
  { cuda_available := false, rank := some "0", fileExists := fun _ => true }

/-- Environment with CUDA available. -/
def demoEnvCuda : Env :=
  { cuda_available := true, rank := some "0", fileExists := fun _ => false }

lemma check_params_ok_iff (params : Value) (pl : List String) :
    check_params params pl = Except.ok () ↔
      ∀ p ∈ pl, (resolvePath params p).isSome = true := by
  induction pl with
  | nil => simp [check_params]
  | cons p ps ih =>
    cases h : resolvePath params p with
    | none => simp [check_params, h]
    | some v => simp [check_params, h, ih]

lemma check_params_error_spec (params : Value) (pl : List String) (msg : String)
    (hmsg : check_params params pl = Except.error msg) :
    ∃ p ∈ pl, resolvePath params p = none ∧ msg = missingParamMsg p := by
  induction pl with
  | nil => simp [check_params] at hmsg
  | cons p ps ih =>
    cases h : resolvePath params p with
    | none =>
      rw [check_params, h] at hmsg
      exact ⟨p, List.mem_cons_self p ps, h, (Except.error.inj hmsg).symm⟩
    | some v =>
      rw [check_params, h] at hmsg
      obtain ⟨q, hq, hq2, hq3⟩ := ih hmsg
      exact ⟨q, List.mem_cons_of_mem p hq, hq2, hq3⟩

lemma check_params_error_first (params : Value) (pl : List String)
    (h : ∃ p ∈ pl, resolvePath params p = none) :
    ∃ p ∈ pl, resolvePath params p = none ∧
      check_params params pl = Except.error (missingParamMsg p) := by
  induction pl with
  | nil => simp at h
  | cons p ps ih =>
    cases hp : resolvePath params p with
    | none => exact ⟨p, List.mem_cons_self p ps, hp, by rw [check_params, hp]⟩
    | some v =>
      obtain ⟨q, hq, hq2⟩ := h
      rcases List.mem_cons.mp hq with rfl | hq'
      · rw [hp] at hq2; exact absurd hq2 (by simp)
      · obtain ⟨r, hr, hr2, hr3⟩ := ih ⟨q, hq', hq2⟩
        exact ⟨r, List.mem_cons_of_mem p hr, hr2, by rw [check_params, hp]; exact hr3⟩

/-- C1: `check_params(params, param_list)` raises a `ValueError` whose
message names a missing path exactly when some dotted path in `param_list`
fails to resolve by successive key lookups (absent key or non-indexable
intermediate value), and returns normally otherwise. -/
theorem check_params_raises_iff_missing (params : Value) (pl : List String) :
    (check_params params pl = Except.ok () ↔
      ∀ p ∈ pl, (resolvePath params p).isSome = true) ∧
    (∀ msg, check_params params pl = Except.error msg →
      ∃ p ∈ pl, resolvePath params p = none ∧ msg = missingParamMsg p) :=
  ⟨check_params_ok_iff params pl, fun _ h => check_params_error_spec params pl _ h⟩

/-- Witness for C1 on the demo configuration. -/
theorem check_params_raises_iff_missing_witness :
    check_params demoParams ["data.batch_size", "optim.lr"] = Except.ok () :=
  (check_params_raises_iff_missing demoParams ["data.batch_size", "optim.lr"]).1.mpr
    (by decide)

/-- C6: when every dotted path of `param_list` resolves, `check_params`
returns normally and the configuration state it hands back is exactly the
one passed in: the loop only reads `params`, never writes it. -/
theorem check_params_leaves_params_unchanged (params : Value) (pl : List String)
    (h : ∀ p ∈ pl, (resolvePath params p).isSome = true) :
    check_params_state params pl = Except.ok params := by
  induction pl with
  | nil => rfl
  | cons p ps ih =>
    have hp := h p (List.mem_cons_self p ps)
    cases hr : resolvePath params p with
    | none => rw [hr] at hp; simp at hp
    | some v =>
      rw [check_params_state, hr]
      exact ih (fun q hq => h q (List.mem_cons_of_mem p hq))

/-- Witness for C6: the demo configuration passes the data-section check
untouched. -/
theorem check_params_leaves_params_unchanged_witness :
    check_params_state demoParams dataParams = Except.ok demoParams :=
  check_params_leaves_params_unchanged demoParams dataParams (by decide)

example :
    build_learner demoEnv demoParams "proj" 0 none =
      ([BEvent.makedirs "proj/model/demo", BEvent.mkDataLoader 32 false,
        BEvent.mkModel, BEvent.initWeights, BEvent.mkDataBunch none,
        BEvent.mkLearner "proj/model/demo"],
       Except.ok { model_dir := "proj/model/demo" }) := rfl

/-- C3: with a non-empty `gpu_ids` and CUDA unavailable, `build_learner`
raises (the CUDA device calls raise, or an earlier configuration access
does) and never reaches the `Learner` construction. -/
theorem build_learner_gpu_unavailable_raises (env : Env) (params : Value)
    (project_dir : String) (pindex : Nat) (comm_file : Option String)
    (gl : List Value)
    (hg : getItem params "gpu_ids" = some (Value.vlist gl))
    (hne : gl ≠ [])
    (hcuda : env.cuda_available = false) :
    (∃ e, (build_learner env params project_dir pindex comm_file).2 =
      Except.error e) ∧
    ∀ md, BEvent.mkLearner md ∉
      (build_learner env params project_dir pindex comm_file).1 := by
  cases hmn : getItem params "model_name" with
  | none => simp [build_learner, hmn]
  | some mv =>
    cases mv with
    | vstr mn =>
      cases gl with
      | nil => exact absurd rfl hne
      | cons a as =>
        simp only [build_learner, hmn, hg, List.isEmpty_cons, Bool.false_eq_true,
          if_false]
        cases hget : (a :: as).get? pindex with
        | none => simp [hget]
        | some did => simp [hget, hcuda]
    | vnone => simp [build_learner, hmn]
    | vint n => simp [build_learner, hmn]
    | vbool b => simp [build_learner, hmn]
    | vlist l => simp [build_learner, hmn]
    | vdict d => simp [build_learner, hmn]

/-- Witness for C3: two GPUs requested, CUDA absent. -/
theorem build_learner_gpu_unavailable_raises_witness :
    (∃ e, (build_learner demoEnv demoParamsGpu "proj" 0 none).2 =
      Except.error e) ∧
    ∀ md, BEvent.mkLearner md ∉
      (build_learner demoEnv demoParamsGpu "proj" 0 none).1 :=
  build_learner_gpu_unavailable_raises demoEnv demoParamsGpu "proj" 0 none
    [Value.vint 0, Value.vint 1] rfl (by simp) rfl

lemma build_learner_init_mem (env : Env) (params : Value)
    (project_dir : String) (pindex : Nat) (comm_file : Option String)
    (ws rk : Nat) (m : String)
    (h : BEvent.initProcessGroup ws rk m ∈
      (build_learner env params project_dir pindex comm_file).1) :
    ∃ mn gl, getItem params "model_name" = some (Value.vstr mn) ∧
      getItem params "gpu_ids" = some (Value.vlist gl) ∧ 1 < gl.length ∧
      ws = gl.length ∧ rk = pindex ∧
      m = "file://" ++ pyStrOfOptStr comm_file := by
  unfold build_learner at h
  repeat' split at h
  all_goals simp_all [List.mem_append]

lemma build_learner_init_mem_of (env : Env) (params : Value)
    (project_dir : String) (pindex : Nat) (comm_file : Option String)
    (mn : String) (gl : List Value) (did : Value)
    (hmn : getItem params "model_name" = some (Value.vstr mn))
    (hg : getItem params "gpu_ids" = some (Value.vlist gl))
    (hget : gl.get? pindex = some did)
    (hcuda : env.cuda_available = true)
    (h1 : 1 < gl.length) :
    BEvent.initProcessGroup gl.length pindex
        ("file://" ++ pyStrOfOptStr comm_file) ∈
      (build_learner env params project_dir pindex comm_file).1 := by
  cases gl with
  | nil => simp at h1
  | cons a as =>
    have hws : (if (a :: as).length > 0 then (a :: as).length else 1) =
        (a :: as).length := by simp
    simp only [build_learner, hmn, hg, List.isEmpty_cons, Bool.false_eq_true,
      if_false, hget, hcuda, if_true, hws]
    rw [if_pos (by simpa using h1)]
    repeat' split
    all_goals simp [List.mem_append]

/-- C4: in a call of `build_learner` whose device setup succeeds, the
distributed process group is initialized exactly when `gpu_ids` has more
than one id, and any initialization uses world size `len(gpu_ids)`, rank
`pindex`, and the rendezvous init method `f'file://{comm_file}'`. -/
theorem build_learner_init_process_group_iff (env : Env) (params : Value)
    (project_dir : String) (pindex : Nat) (comm_file : Option String)
    (mn : String) (gl : List Value)
    (hmn : getItem params "model_name" = some (Value.vstr mn))
    (hg : getItem params "gpu_ids" = some (Value.vlist gl))
    (hdev : gl = [] ∨
      ((gl.get? pindex).isSome = true ∧ env.cuda_available = true)) :
    ((∃ ws rk m, BEvent.initProcessGroup ws rk m ∈
        (build_learner env params project_dir pindex comm_file).1) ↔
      1 < gl.length) ∧
    (∀ ws rk m, BEvent.initProcessGroup ws rk m ∈
        (build_learner env params project_dir pindex comm_file).1 →
      ws = gl.length ∧ rk = pindex ∧
        m = "file://" ++ pyStrOfOptStr comm_file) := by
  have hsnd : ∀ ws rk m, BEvent.initProcessGroup ws rk m ∈
      (build_learner env params project_dir pindex comm_file).1 →
      ws = gl.length ∧ rk = pindex ∧
        m = "file://" ++ pyStrOfOptStr comm_file := by
    intro ws rk m hmem
    obtain ⟨mn', gl', hmn', hg', h1, hws, hrk, hm⟩ :=
      build_learner_init_mem env params project_dir pindex comm_file ws rk m hmem
    rw [hg] at hg'
    obtain rfl : gl' = gl := by
      cases hg'
      rfl
    exact ⟨hws, hrk, hm⟩
  refine ⟨⟨?_, ?_⟩, hsnd⟩
  · rintro ⟨ws, rk, m, hmem⟩
    obtain ⟨mn', gl', hmn', hg', h1, hws, hrk, hm⟩ :=
      build_learner_init_mem env params project_dir pindex comm_file ws rk m hmem
    rw [hg] at hg'
    obtain rfl : gl' = gl := by
      cases hg'
      rfl
    exact h1
  · intro h1
    rcases hdev with rfl | ⟨hget, hcuda⟩
    · simp at h1
    · obtain ⟨did, hdid⟩ := Option.isSome_iff_exists.mp hget
      exact ⟨gl.length, pindex, "file://" ++ pyStrOfOptStr comm_file,
        build_learner_init_mem_of env params project_dir pindex comm_file
          mn gl did hmn hg hdid hcuda h1⟩

/-- Witness for C4: two GPUs with CUDA available, a rendezvous file given. -/
theorem build_learner_init_process_group_iff_witness :
    ((∃ ws rk m, BEvent.initProcessGroup ws rk m ∈
        (build_learner demoEnvCuda demoParamsGpu "proj" 1 (some "/tmp/comm")).1) ↔
      1 < ([Value.vint 0, Value.vint 1] : List Value).length) ∧
    (∀ ws rk m, BEvent.initProcessGroup ws rk m ∈
        (build_learner demoEnvCuda demoParamsGpu "proj" 1 (some "/tmp/comm")).1 →
      ws = ([Value.vint 0, Value.vint 1] : List Value).length ∧ rk = 1 ∧
        m = "file://" ++ pyStrOfOptStr (some "/tmp/comm")) :=
  build_learner_init_process_group_iff demoEnvCuda demoParamsGpu "proj" 1
    (some "/tmp/comm") "demo" [Value.vint 0, Value.vint 1] rfl rfl
    (Or.inr ⟨rfl, rfl⟩)

lemma build_learner_model_mem (env : Env) (params : Value)
    (project_dir : String) (pindex : Nat) (comm_file : Option String)
    (h : BEvent.mkModel ∈
      (build_learner env params project_dir pindex comm_file).1) :
    check_params params dataParams = Except.ok () ∧
    check_params params networkParams = Except.ok () := by
  unfold build_learner at h
  repeat' split at h
  all_goals simp_all [List.mem_append]

lemma build_learner_loader_mem (env : Env) (params : Value)
    (project_dir : String) (pindex : Nat) (comm_file : Option String)
    (b : Int) (d : Bool)
    (h : BEvent.mkDataLoader b d ∈
      (build_learner env params project_dir pindex comm_file).1) :
    check_params params dataParams = Except.ok () ∧
    ∃ gl bs, getItem params "gpu_ids" = some (Value.vlist gl) ∧
      resolvePath params "data.batch_size" = some (Value.vint bs) ∧
      b = Int.fdiv bs (if gl.length > 0 then gl.length else 1) := by
  unfold build_learner at h
  repeat' split at h
  all_goals simp_all [List.mem_append]

lemma build_learner_snd_data_error (env : Env) (params : Value)
    (project_dir : String) (pindex : Nat) (comm_file : Option String)
    (mn : String) (gl : List Value) (msg : String)
    (hmn : getItem params "model_name" = some (Value.vstr mn))
    (hg : getItem params "gpu_ids" = some (Value.vlist gl))
    (hdev : gl = [] ∨
      ((gl.get? pindex).isSome = true ∧ env.cuda_available = true))
    (hcp : check_params params dataParams = Except.error msg) :
    (build_learner env params project_dir pindex comm_file).2 =
      Except.error (PyErr.valueError msg) := by
  rcases hdev with rfl | ⟨hget, hcuda⟩
  · simp [build_learner, hmn, hg, hcp]
  · obtain ⟨did, hdid⟩ := Option.isSome_iff_exists.mp hget
    cases gl with
    | nil => simp at hdid
    | cons a as =>
      simp only [build_learner, hmn, hg, hcuda, hcp]
      repeat' split
      all_goals simp_all

lemma build_learner_snd_network_error (env : Env) (params : Value)
    (project_dir : String) (pindex : Nat) (comm_file : Option String)
    (mn : String) (gl : List Value) (bs : Int) (dd : String) (msg : String)
    (hmn : getItem params "model_name" = some (Value.vstr mn))
    (hg : getItem params "gpu_ids" = some (Value.vlist gl))
    (hdev : gl = [] ∨
      ((gl.get? pindex).isSome = true ∧ env.cuda_available = true))
    (hcp : check_params params dataParams = Except.ok ())
    (hbs : resolvePath params "data.batch_size" = some (Value.vint bs))
    (hdir : resolvePath params "data.dir" = some (Value.vstr dd))
    (hcp2 : check_params params networkParams = Except.error msg) :
    (build_learner env params project_dir pindex comm_file).2 =
      Except.error (PyErr.valueError msg) := by
  rcases hdev with rfl | ⟨hget, hcuda⟩
  · simp [build_learner, hmn, hg, hcp, hbs, hdir, hcp2]
  · obtain ⟨did, hdid⟩ := Option.isSome_iff_exists.mp hget
    cases gl with
    | nil => simp at hdid
    | cons a as =>
      simp only [build_learner, hmn, hg, hcuda, hcp, hbs, hdir, hcp2]
      repeat' split
      all_goals simp_all

lemma build_learner_loader_mem_of (env : Env) (params : Value)
    (project_dir : String) (pindex : Nat) (comm_file : Option String)
    (mn : String) (gl : List Value) (bs : Int) (dd : String)
    (hmn : getItem params "model_name" = some (Value.vstr mn))
    (hg : getItem params "gpu_ids" = some (Value.vlist gl))
    (hdev : gl = [] ∨
      ((gl.get? pindex).isSome = true ∧ env.cuda_available = true))
    (hcp : check_params params dataParams = Except.ok ())
    (hbs : resolvePath params "data.batch_size" = some (Value.vint bs))
    (hdir : resolvePath params "data.dir" = some (Value.vstr dd)) :
    ∃ d, BEvent.mkDataLoader
        (Int.fdiv bs (if gl.length > 0 then gl.length else 1)) d ∈
      (build_learner env params project_dir pindex comm_file).1 := by
  rcases hdev with rfl | ⟨hget, hcuda⟩
  · refine ⟨false, ?_⟩
    simp only [build_learner, hmn, hg, hcp, hbs, hdir]
    repeat' split
    all_goals simp_all [List.mem_append]
  · obtain ⟨did, hdid⟩ := Option.isSome_iff_exists.mp hget
    cases gl with
    | nil => simp at hdid
    | cons a as =>
      refine ⟨decide ((if (a :: as).length > 0 then (a :: as).length else 1) > 1), ?_⟩
      simp only [build_learner, hmn, hg, hdid, hcuda, hcp, hbs, hdir]
      repeat' split
      all_goals simp_all [List.mem_append]

/-- The demo configuration with `data.batch_size` removed. -/
def demoParamsNoBatch : Value := Value.vdict
  [("model_name", Value.vstr "demo"),
   ("gpu_ids", Value.vlist []),
   ("data", Value.vdict
     [("dir", Value.vstr "data"), ("epoch_size", Value.vint 100),
      ("max_length", Value.vint 50), ("max_test_size", Value.vint 10),
      ("max_val_size", Value.vint 10), ("src", Value.vstr "de"),
      ("tgt", Value.vstr "en")]),
   ("decoder", Value.vdict
     [("embedding_dim", Value.vint 128), ("embedding_dropout", Value.vint 0),
      ("prediction_dropout", Value.vint 0)]),
   ("encoder", Value.vdict
     [("embedding_dim", Value.vint 128), ("embedding_dropout", Value.vint 0)]),
   ("network", Value.vdict
     [("bias", Value.vbool true), ("block_sizes", Value.vlist [Value.vint 2]),
      ("division_factor", Value.vint 1), ("dropout", Value.vint 0),
      ("efficient", Value.vbool false), ("growth_rate", Value.vint 2)]),
   ("optim", Value.vdict [("epochs", Value.vint 10), ("lr", Value.vint 1)])]

/-- C7: in a call of `build_learner` whose device setup succeeds, a missing
required `data` key produces a `ValueError` before the data loader (and the
model) is constructed; with the `data` keys present, a missing required
`encoder`/`decoder`/`network` key produces a `ValueError` after the data
loader but before the model is constructed; and every dotted path the file
checks starts with one of the schema groups. -/
theorem build_learner_required_keys (env : Env) (params : Value)
    (project_dir : String) (pindex : Nat) (comm_file : Option String)
    (mn : String) (gl : List Value)
    (hmn : getItem params "model_name" = some (Value.vstr mn))
    (hg : getItem params "gpu_ids" = some (Value.vlist gl))
    (hdev : gl = [] ∨
      ((gl.get? pindex).isSome = true ∧ env.cuda_available = true)) :
    ((∃ p ∈ dataParams, resolvePath params p = none) →
      ∃ p ∈ dataParams, resolvePath params p = none ∧
        (build_learner env params project_dir pindex comm_file).2 =
          Except.error (PyErr.valueError (missingParamMsg p)) ∧
        (∀ b d, BEvent.mkDataLoader b d ∉
          (build_learner env params project_dir pindex comm_file).1) ∧
        BEvent.mkModel ∉
          (build_learner env params project_dir pindex comm_file).1) ∧
    ((∀ p ∈ dataParams, (resolvePath params p).isSome = true) →
      ∀ bs dd, resolvePath params "data.batch_size" = some (Value.vint bs) →
        resolvePath params "data.dir" = some (Value.vstr dd) →
        (∃ p ∈ networkParams, resolvePath params p = none) →
        ∃ p ∈ networkParams, resolvePath params p = none ∧
          (build_learner env params project_dir pindex comm_file).2 =
            Except.error (PyErr.valueError (missingParamMsg p)) ∧
          BEvent.mkModel ∉
            (build_learner env params project_dir pindex comm_file).1 ∧
          ∃ d, BEvent.mkDataLoader
              (Int.fdiv bs (if gl.length > 0 then gl.length else 1)) d ∈
            (build_learner env params project_dir pindex comm_file).1) ∧
    (∀ p ∈ dataParams ++ networkParams ++ optimParams,
      (pySplit p '.').headD "" ∈
        ["data", "decoder", "encoder", "network", "optim"]) := by
  refine ⟨?_, ?_, by decide⟩
  · intro hmiss
    obtain ⟨p, hp, hpn, hcp⟩ := check_params_error_first params dataParams hmiss
    refine ⟨p, hp, hpn,
      build_learner_snd_data_error env params project_dir pindex comm_file
        mn gl _ hmn hg hdev hcp, ?_, ?_⟩
    · intro b d hb
      have := (build_learner_loader_mem env params project_dir pindex
        comm_file b d hb).1
      rw [hcp] at this
      exact absurd this (by simp)
    · intro hb
      have := (build_learner_model_mem env params project_dir pindex
        comm_file hb).1
      rw [hcp] at this
      exact absurd this (by simp)
  · intro hok bs dd hbs hdir hmiss
    have hcp : check_params params dataParams = Except.ok () :=
      (check_params_ok_iff params dataParams).mpr hok
    obtain ⟨p, hp, hpn, hcp2⟩ := check_params_error_first params networkParams hmiss
    refine ⟨p, hp, hpn,
      build_learner_snd_network_error env params project_dir pindex comm_file
        mn gl bs dd _ hmn hg hdev hcp hbs hdir hcp2, ?_,
      build_learner_loader_mem_of env params project_dir pindex comm_file
        mn gl bs dd hmn hg hdev hcp hbs hdir⟩
    intro hb
    have := (build_learner_model_mem env params project_dir pindex
      comm_file hb).2
    rw [hcp2] at this
    exact absurd this (by simp)

/-- Witness for C7: the demo configuration without `data.batch_size`. -/
theorem build_learner_required_keys_witness :
    ∃ p ∈ dataParams, resolvePath demoParamsNoBatch p = none ∧
      (build_learner demoEnv demoParamsNoBatch "proj" 0 none).2 =
        Except.error (PyErr.valueError (missingParamMsg p)) ∧
      (∀ b d, BEvent.mkDataLoader b d ∉
        (build_learner demoEnv demoParamsNoBatch "proj" 0 none).1) ∧
      BEvent.mkModel ∉
        (build_learner demoEnv demoParamsNoBatch "proj" 0 none).1 :=
  (build_learner_required_keys demoEnv demoParamsNoBatch "proj" 0 none
    "demo" [] rfl rfl (Or.inl rfl)).1
    ⟨"data.batch_size", by simp [dataParams], rfl⟩

/-- C9: in a call of `build_learner` whose device setup succeeds and whose
`data` section is complete, the batch size handed to the data loader is
`params['data']['batch_size'] // world_size` with
`world_size = len(gpu_ids) if len(gpu_ids) > 0 else 1` (every loader
construction in the trace carries exactly that value); in particular it is
`0` whenever the configured batch size is nonnegative and smaller than the
number of GPUs. -/
theorem build_learner_batch_size_div (env : Env) (params : Value)
    (project_dir : String) (pindex : Nat) (comm_file : Option String)
    (mn : String) (gl : List Value) (bs : Int) (dd : String)
    (hmn : getItem params "model_name" = some (Value.vstr mn))
    (hg : getItem params "gpu_ids" = some (Value.vlist gl))
    (hdev : gl = [] ∨
      ((gl.get? pindex).isSome = true ∧ env.cuda_available = true))
    (hok : ∀ p ∈ dataParams, (resolvePath params p).isSome = true)
    (hbs : resolvePath params "data.batch_size" = some (Value.vint bs))
    (hdir : resolvePath params "data.dir" = some (Value.vstr dd)) :
    (∃ d, BEvent.mkDataLoader
        (Int.fdiv bs (if gl.length > 0 then gl.length else 1)) d ∈
      (build_learner env params project_dir pindex comm_file).1) ∧
    (∀ b d, BEvent.mkDataLoader b d ∈
        (build_learner env params project_dir pindex comm_file).1 →
      b = Int.fdiv bs (if gl.length > 0 then gl.length else 1)) ∧
    (0 ≤ bs → bs < (gl.length : Int) →
      Int.fdiv bs (if gl.length > 0 then gl.length else 1) = 0) := by
  have hcp : check_params params dataParams = Except.ok () :=
    (check_params_ok_iff params dataParams).mpr hok
  refine ⟨build_learner_loader_mem_of env params project_dir pindex comm_file
    mn gl bs dd hmn hg hdev hcp hbs hdir, ?_, ?_⟩
  · intro b d hb
    obtain ⟨-, gl', bs', hg', hbs', hbval⟩ :=
      build_learner_loader_mem env params project_dir pindex comm_file b d hb
    rw [hg] at hg'
    obtain rfl : gl' = gl := by cases hg'; rfl
    rw [hbs] at hbs'
    obtain rfl : bs' = bs := by cases hbs'; rfl
    exact hbval
  · intro h0 hlt
    have hpos : gl.length > 0 := by
      by_contra hc
      rw [Nat.eq_zero_of_not_pos hc] at hlt
      omega
    rw [if_pos hpos, Int.fdiv_eq_ediv _ (by exact_mod_cast Nat.zero_le gl.length)]
    exact Int.ediv_eq_zero_of_lt h0 hlt

/-- Witness for C9 on the CPU demo configuration (world size 1). -/
theorem build_learner_batch_size_div_witness :
    (∃ d, BEvent.mkDataLoader
        (Int.fdiv 32 (if ([] : List Value).length > 0 then
          ([] : List Value).length else 1)) d ∈
      (build_learner demoEnv demoParams "proj" 0 none).1) ∧
    (∀ b d, BEvent.mkDataLoader b d ∈
        (build_learner demoEnv demoParams "proj" 0 none).1 →
      b = Int.fdiv 32 (if ([] : List Value).length > 0 then
        ([] : List Value).length else 1)) ∧
    (0 ≤ (32 : Int) → (32 : Int) < (([] : List Value).length : Int) →
      Int.fdiv 32 (if ([] : List Value).length > 0 then
        ([] : List Value).length else 1) = 0) :=
  build_learner_batch_size_div demoEnv demoParams "proj" 0 none
    "demo" [] 32 "data" rfl rfl (Or.inl rfl) (by decide) rfl rfl

lemma fitPhase_fit (params : Value) (tr : List Event) (epoch : Option Int)
    (ev lv : Value)
    (he : resolvePath params "optim.epochs" = some ev)
    (hl : resolvePath params "optim.lr" = some lv) :
    fitPhase params tr epoch =
      (tr ++ [Event.setCallbacks [Callback.saveModel "epoch" "model"],
        Event.fitOneCycle ev lv ev epoch], none) := by
  have hok : check_params params optimParams = Except.ok () := by
    apply (check_params_ok_iff params optimParams).mpr
    intro p hp
    simp only [optimParams, List.mem_cons, List.not_mem_nil, or_false] at hp
    rcases hp with rfl | rfl
    · rw [he]; rfl
    · rw [hl]; rfl
  simp [fitPhase, hok, he, hl]

/-- C2: when `restore` names a checkpoint whose file is absent, the
`FileNotFoundError` of `learn.load` is caught: `train_worker` returns
normally (no exception propagates), never calls `fit_one_cycle`, and the
rank-0 worker prints the missing-file message. -/
theorem train_worker_missing_checkpoint_aborts (env : Env) (pindex : Nat)
    (project_dir : String) (params : Value) (comm_file : Option String)
    (checkpoint : Option Value) (r : String) (btr : List BEvent)
    (learn : LearnerM)
    (hb : build_learner env params project_dir pindex comm_file =
      (btr, Except.ok learn))
    (hf : env.fileExists (learn.model_dir ++ "/" ++ stripPth r ++ ".pth") =
      false) :
    (train_worker env pindex project_dir params comm_file checkpoint
      (some r)).2 = none ∧
    (∀ e l t s, Event.fitOneCycle e l t s ∉
      (train_worker env pindex project_dir params comm_file checkpoint
        (some r)).1) ∧
    (pindex = 0 →
      Event.printMsg ("The model file " ++ learn.model_dir ++ "/" ++
          stripPth r ++ ".pth was not found!") ∈
        (train_worker env pindex project_dir params comm_file checkpoint
          (some r)).1) := by
  refine ⟨?_, ?_, ?_⟩
  · simp [train_worker, hb, hf]
  · intro e l t s
    simp only [train_worker, hb, hf]
    repeat' split
    all_goals simp_all [List.mem_append]
  · intro h0
    subst h0
    simp [train_worker, hb, hf, List.mem_append]

/-- The `Learner` built from the demo configuration under `proj`. -/
def demoLearner : LearnerM := { model_dir := "proj/model/demo" }

/-- The build trace of the demo configuration (CPU, world size 1). -/
def demoBTrace : List BEvent :=
  [BEvent.makedirs "proj/model/demo", BEvent.mkDataLoader 32 false,
   BEvent.mkModel, BEvent.initWeights, BEvent.mkDataBunch none,
   BEvent.mkLearner "proj/model/demo"]

/-- Witness for C2: restoring `model_3.pth` when no checkpoint file exists. -/
theorem train_worker_missing_checkpoint_aborts_witness :
    (train_worker demoEnv 0 "proj" demoParams none none
      (some "model_3.pth")).2 = none ∧
    (∀ e l t s, Event.fitOneCycle e l t s ∉
      (train_worker demoEnv 0 "proj" demoParams none none
        (some "model_3.pth")).1) ∧
    ((0 : Nat) = 0 →
      Event.printMsg ("The model file " ++ demoLearner.model_dir ++ "/" ++
          stripPth "model_3.pth" ++ ".pth was not found!") ∈
        (train_worker demoEnv 0 "proj" demoParams none none
          (some "model_3.pth")).1) :=
  train_worker_missing_checkpoint_aborts demoEnv 0 "proj" demoParams none
    none "model_3.pth" demoBTrace demoLearner rfl rfl

/-- C5: when the learner builds and the optional restore succeeds (or none
was requested), `train_worker` finishes by calling `fit_one_cycle` with
`params['optim']['epochs']`, `params['optim']['lr']`, `tot_epochs` equal to
the epochs value, and a start epoch derived from the restored checkpoint
name (`None` when not restoring). -/
theorem train_worker_fit_one_cycle_args (env : Env) (pindex : Nat)
    (project_dir : String) (params : Value) (comm_file : Option String)
    (checkpoint : Option Value) (restore : Option String)
    (btr : List BEvent) (learn : LearnerM) (ev lv : Value)
    (hb : build_learner env params project_dir pindex comm_file =
      (btr, Except.ok learn))
    (he : resolvePath params "optim.epochs" = some ev)
    (hl : resolvePath params "optim.lr" = some lv)
    (hres : restore = none ∨ ∃ r, restore = some r ∧
      env.fileExists (learn.model_dir ++ "/" ++ stripPth r ++ ".pth") =
        true) :
    (train_worker env pindex project_dir params comm_file checkpoint
      restore).2 = none ∧
    (train_worker env pindex project_dir params comm_file checkpoint
      restore).1.getLast? =
      some (Event.fitOneCycle ev lv ev
        (match restore with
         | none => none
         | some r => resumeEpoch (stripPth r))) := by
  rcases hres with rfl | ⟨r, rfl, hf⟩
  · rw [train_worker]
    simp only [hb]
    rw [fitPhase_fit params _ none ev lv he hl]
    constructor
    · rfl
    · simp [List.getLast?_append]
  · rw [train_worker]
    simp only [hb, hf, if_true]
    rw [fitPhase_fit params _ (resumeEpoch (stripPth r)) ev lv he hl]
    constructor
    · rfl
    · rcases eq_or_ne pindex 0 with h0 | h0 <;>
        simp [h0, List.getLast?_append]

/-- Witness for C5: the demo configuration without a restore request. -/
theorem train_worker_fit_one_cycle_args_witness :
    (train_worker demoEnv 0 "proj" demoParams none none none).2 = none ∧
    (train_worker demoEnv 0 "proj" demoParams none none none).1.getLast? =
      some (Event.fitOneCycle (Value.vint 10) (Value.vint 1) (Value.vint 10)
        none) :=
  train_worker_fit_one_cycle_args demoEnv 0 "proj" demoParams none none
    none demoBTrace demoLearner (Value.vint 10) (Value.vint 1) rfl rfl rfl
    (Or.inl rfl)

/-- C10: for a restore that loads successfully, the start epoch handed to
`fit_one_cycle` comes from the restore name with a trailing `.pth`
stripped: the final `'/'`-component is split on `'_'`; with at least two
fields and an integer second field the start epoch is that integer plus
one, and in every other case it is `None`. -/
theorem train_worker_resume_epoch_parse (env : Env) (pindex : Nat)
    (project_dir : String) (params : Value) (comm_file : Option String)
    (checkpoint : Option Value) (r : String) (btr : List BEvent)
    (learn : LearnerM) (ev lv : Value)
    (hb : build_learner env params project_dir pindex comm_file =
      (btr, Except.ok learn))
    (he : resolvePath params "optim.epochs" = some ev)
    (hl : resolvePath params "optim.lr" = some lv)
    (hf : env.fileExists (learn.model_dir ++ "/" ++ stripPth r ++ ".pth") =
      true) :
    (train_worker env pindex project_dir params comm_file checkpoint
      (some r)).1.getLast? =
      some (Event.fitOneCycle ev lv ev
        (match pySplit ((pySplit (stripPth r) '/').getLastD "") '_' with
         | _ :: f :: _ => (pyInt f).map (fun n => n + 1)
         | _ => none)) := by
  have hre : resumeEpoch (stripPth r) =
      (match pySplit ((pySplit (stripPth r) '/').getLastD "") '_' with
       | _ :: f :: _ => (pyInt f).map (fun n => n + 1)
       | _ => none) := by
    simp only [resumeEpoch]
    cases hfs : pySplit ((pySplit (stripPth r) '/').getLastD "") '_' with
    | nil => simp
    | cons a as =>
      cases as with
      | nil => simp
      | cons b bs =>
        rw [if_pos (by simp only [List.length_cons]; omega)]
        cases hpi : pyInt b <;> simp [List.getD, hpi]
  rw [train_worker]
  simp only [hb, hf, if_true]
  rw [fitPhase_fit params _ (resumeEpoch (stripPth r)) ev lv he hl, hre]
  rcases eq_or_ne pindex 0 with h0 | h0 <;>
    simp [h0, List.getLast?_append]

/-- Witness for C10: restoring `model_4.pth` resumes at epoch 5. -/
theorem train_worker_resume_epoch_parse_witness :
    (train_worker demoEnvFile 0 "proj" demoParams none none
      (some "model_4.pth")).1.getLast? =
      some (Event.fitOneCycle (Value.vint 10) (Value.vint 1) (Value.vint 10)
        (some 5)) :=
  train_worker_resume_epoch_parse demoEnvFile 0 "proj" demoParams none none
    "model_4.pth" demoBTrace demoLearner (Value.vint 10) (Value.vint 1)
    rfl rfl rfl rfl

/-- C8: `train_worker` never reads its `checkpoint` argument: two calls
differing only in `checkpoint` are identical, and the only callback list
ever registered is the single save-every-epoch `SaveModelCallback`. -/
theorem train_worker_checkpoint_ignored (env : Env) (pindex : Nat)
    (project_dir : String) (params : Value) (comm_file : Option String)
    (c1 c2 : Option Value) (restore : Option String) :
    train_worker env pindex project_dir params comm_file c1 restore =
      train_worker env pindex project_dir params comm_file c2 restore ∧
    ∀ cbs, Event.setCallbacks cbs ∈
        (train_worker env pindex project_dir params comm_file c1 restore).1 →
      cbs = [Callback.saveModel "epoch" "model"] := by
  refine ⟨rfl, ?_⟩
  intro cbs h
  unfold train_worker fitPhase at h
  repeat' split at h
  all_goals (try (rw [apply_ite Prod.fst] at h; split at h))
  all_goals simp_all [List.mem_append]

/-- Witness for C8: two different checkpoint arguments on the demo
configuration. -/
theorem train_worker_checkpoint_ignored_witness :
    train_worker demoEnv 0 "proj" demoParams none (some (Value.vint 5))
        none =
      train_worker demoEnv 0 "proj" demoParams none (some (Value.vint 7))
        none ∧
    ∀ cbs, Event.setCallbacks cbs ∈
        (train_worker demoEnv 0 "proj" demoParams none (some (Value.vint 5))
          none).1 →
      cbs = [Callback.saveModel "epoch" "model"] :=
  train_worker_checkpoint_ignored demoEnv 0 "proj" demoParams none
    (some (Value.vint 5)) (some (Value.vint 7)) none
